import Mathlib

set_option maxRecDepth 8000

/-!
Verification of the Flyer-Logic controller (TucoFlyer).

This file is a shallow embedding, in Lean 4, of the controller code under
`src/`: the message data model (`src/message.rs`), the configuration types
(`src/config.rs`), the controller state machine (`src/controller/state.rs`)
and the event-loop message handler (`src/controller/mod.rs`).

Numeric conventions: Rust `f32`/`f64` values are embedded as `Rat` (exact
arithmetic), `i32`/`i16` as `Int`, `u32`/`usize` as `Nat`.  `Instant`s are
embedded as natural-number timestamps in milliseconds, passed explicitly
where the source calls `Instant::now()`.

Several modules of this repository are referenced by the code under `src/`
but their files are not present there (`controller/winch.rs`,
`controller/manual.rs`, `controller/timer.rs`, the `vecmath` helpers,
`SharedConfigFile` and `Config::merge`).  Definitions for those parts are
modelled from the specification and carry a doc comment starting with
"Modelled from the spec:".  Everything else is translated directly from the
source files.
-/

/-! ## Basic numeric helpers -/

/-- Clamp a rational into the interval from lo to hi (num::clamp). -/
def clampQ (x lo hi : ℚ) : ℚ := max lo (min x hi)

/-- Linear interpolation, used for the IIR filters: lerp a b t moves a
towards b by fraction t. -/
def lerpQ (a b t : ℚ) : ℚ := a + (b - a) * t

theorem clampQ_le_hi (x lo hi : ℚ) (h : lo ≤ hi) : clampQ x lo hi ≤ hi := by
  unfold clampQ
  exact max_le h (min_le_right x hi)

theorem lo_le_clampQ (x lo hi : ℚ) : lo ≤ clampQ x lo hi := le_max_left lo _

theorem clampQ_nonpos (x hi : ℚ) (hx : x ≤ 0) (hhi : 0 ≤ hi) :
    clampQ x (-hi) hi ≤ 0 := by
  unfold clampQ
  exact max_le (neg_nonpos.mpr hhi) (le_trans (min_le_left x hi) hx)

theorem clampQ_nonneg (x hi : ℚ) (hx : 0 ≤ x) (hhi : 0 ≤ hi) :
    0 ≤ clampQ x (-hi) hi := by
  unfold clampQ
  rcases le_total x hi with h | h
  · rw [min_eq_left h]
    exact le_max_of_le_right hx
  · rw [min_eq_right h]
    exact le_max_of_le_right hhi

/-! ## Vectors and rectangles

The source stores camera rectangles as `Vector4<f32>` in the layout
`[x, y, w, h]` and 2- and 3-vectors as fixed arrays.  We embed them as
structures with named fields. -/

/-- Two-component vector (vecmath `Vector2<f32>`). -/
structure Vec2 where
  x : ℚ
  y : ℚ
deriving DecidableEq, Repr

/-- Three-component vector (vecmath `Vector3<f32>`); `limited_velocity()[1]`
reads the `y` component. -/
structure Vec3 where
  x : ℚ
  y : ℚ
  z : ℚ
deriving DecidableEq, Repr

/-- Camera rectangle (vecmath `Vector4<f32>` in layout x, y, width, height). -/
structure Rect where
  x : ℚ
  y : ℚ
  w : ℚ
  h : ℚ
deriving DecidableEq, Repr

/-- Modelled from the spec: vecmath `vec2_add`, componentwise sum
(the repository's vecmath module is not under src/). -/
def vec2_add (a b : Vec2) : Vec2 := ⟨a.x + b.x, a.y + b.y⟩

/-- Modelled from the spec: vecmath `vec2_mul`, componentwise product. -/
def vec2_mul (a b : Vec2) : Vec2 := ⟨a.x * b.x, a.y * b.y⟩

/-- Modelled from the spec: vecmath `vec2_scale`, scalar multiple.  In the
source the call shape is `vec2_scale(v, s)`. -/
def vec2_scale (a : Vec2) (s : ℚ) : Vec2 := ⟨a.x * s, a.y * s⟩

/-- Modelled from the spec: vecmath `rect_area`, width times height. -/
def rect_area (r : Rect) : ℚ := r.w * r.h

/-- Modelled from the spec: vecmath `rect_center`, the middle point. -/
def rect_center (r : Rect) : Vec2 := ⟨r.x + r.w / 2, r.y + r.h / 2⟩

/-- Modelled from the spec: vecmath `rect_translate`, translation by a
vector; used in the manual-steering branch on a rect centered at the
origin, so the translation vector becomes the new center. -/
def rect_translate (r : Rect) (t : Vec2) : Rect := ⟨r.x + t.x, r.y + t.y, r.w, r.h⟩

/-- Containment of rectangles: every point of the inner rect lies in the
outer one (both in the x, y, w, h layout). -/
def rectContains (outer inner : Rect) : Prop :=
  outer.x ≤ inner.x ∧ outer.y ≤ inner.y ∧
  inner.x + inner.w ≤ outer.x + outer.w ∧
  inner.y + inner.h ≤ outer.y + outer.h

instance (outer inner : Rect) : Decidable (rectContains outer inner) := by
  unfold rectContains
  infer_instance

/-- Modelled from the spec: vecmath `rect_constrain` clamps a rect into a
border rect, shrinking it to the border size if needed, so that the
result always lies inside the border (spec §4.5 and the containment
invariant of §3). -/
def rect_constrain (r border : Rect) : Rect :=
  let w := min r.w border.w
  let h := min r.h border.h
  { x := clampQ r.x border.x (border.x + border.w - w)
    y := clampQ r.y border.y (border.y + border.h - h)
    w := w
    h := h }

theorem rect_constrain_contains (r border : Rect) :
    rectContains border (rect_constrain r border) := by
  unfold rect_constrain rectContains
  refine ⟨lo_le_clampQ _ _ _, lo_le_clampQ _ _ _, ?_, ?_⟩
  · have hhi : border.x ≤ border.x + border.w - min r.w border.w := by
      have : min r.w border.w ≤ border.w := min_le_right _ _
      linarith
    have := clampQ_le_hi r.x border.x (border.x + border.w - min r.w border.w) hhi
    linarith
  · have hhi : border.y ≤ border.y + border.h - min r.h border.h := by
      have : min r.h border.h ≤ border.h := min_le_right _ _
      linarith
    have := clampQ_le_hi r.y border.y (border.y + border.h - min r.h border.h) hhi
    linarith

/-! ## Winch calibration (src/config.rs) -/

/-- Winch calibration constants, from src/config.rs. -/
structure WinchCalibration where
  kg_force_at_zero : ℚ
  kg_force_per_count : ℚ
  m_dist_per_count : ℚ
deriving DecidableEq, Repr

/-- force_to_kg from src/config.rs: affine map from raw counts to kg. -/
def WinchCalibration.force_to_kg (c : WinchCalibration) (counts : ℚ) : ℚ :=
  c.kg_force_at_zero + c.kg_force_per_count * counts

/-- force_from_kg from src/config.rs: inverse affine map, kg to counts. -/
def WinchCalibration.force_from_kg (c : WinchCalibration) (kg : ℚ) : ℚ :=
  (kg - c.kg_force_at_zero) / c.kg_force_per_count

/-- dist_to_m from src/config.rs: counts to meters. -/
def WinchCalibration.dist_to_m (c : WinchCalibration) (counts : ℚ) : ℚ :=
  c.m_dist_per_count * counts

/-- dist_from_m from src/config.rs.  Note that the source multiplies by
m_dist_per_count here rather than dividing. -/
def WinchCalibration.dist_from_m (c : WinchCalibration) (m : ℚ) : ℚ :=
  m * c.m_dist_per_count

/-! ## Message data model (src/src/message.rs) -/

/-- TICK_HZ constant from src/message.rs. -/
def TICK_HZ : Nat := 250

/-- Control-loop period in seconds, 1 / TICK_HZ (spec §4.4). -/
def tickDt : ℚ := 1 / (TICK_HZ : ℚ)

/-- Manual control axes, from src/message.rs. -/
inductive ManualControlAxis where
  | CameraYaw
  | CameraPitch
  | RelativeX
  | RelativeY
  | RelativeZ
deriving DecidableEq, Repr

/-- Controller modes, from src/config.rs. -/
inductive ControllerMode where
  | Halted
  | Normal
  | ManualFlyer
  | ManualWinch (id : Nat)
deriving DecidableEq, Repr

/-- Camera tracked region.  The struct in src/message.rs carries rect and
psr; src/controller/state.rs additionally reads and writes age and frame
fields on it, so the embedding carries all four. -/
structure CameraTrackedRegion where
  rect : Rect
  psr : ℚ
  age : Nat
  frame : Nat
deriving DecidableEq, Repr

/-- CameraTrackedRegion::new, zero-initialized. -/
def CameraTrackedRegion.new : CameraTrackedRegion :=
  { rect := ⟨0, 0, 0, 0⟩, psr := 0, age := 0, frame := 0 }

/-- Detected object from the vision pipeline, src/message.rs. -/
structure CameraDetectedObject where
  rect : Rect
  prob : ℚ
  label : String
deriving DecidableEq, Repr

/-- Detection set with its frame id; state.rs reads `detected.1.objects`
and `detected.1.frame`. -/
structure CameraDetectedObjects where
  objects : List CameraDetectedObject
  frame : Nat
deriving DecidableEq, Repr

/-- CameraDetectedObjects::new, empty. -/
def CameraDetectedObjects.new : CameraDetectedObjects := { objects := [], frame := 0 }

/-- Force telemetry from a winch, src/message.rs. -/
structure ForceTelemetry where
  measure : Int
  filtered : ℚ
  counter : Nat
deriving DecidableEq, Repr

/-- Force limits sent to the winch firmware, src/message.rs. -/
structure ForceCommand where
  filter_param : ℚ
  neg_motion_min : ℚ
  pos_motion_max : ℚ
  lockout_below : ℚ
  lockout_above : ℚ
deriving DecidableEq, Repr

/-- PID gains sent to the winch firmware, src/message.rs. -/
structure PIDGains where
  gain_p : ℚ
  gain_i : ℚ
  gain_d : ℚ
  p_filter_param : ℚ
  i_decay_param : ℚ
  d_filter_param : ℚ
deriving DecidableEq, Repr

/-- Winch deadband parameters, src/message.rs. -/
structure WinchDeadband where
  position : Int
  velocity : ℚ
deriving DecidableEq, Repr

/-- Command sent to one winch, src/message.rs (position is an i32 of
encoder counts). -/
structure WinchCommand where
  position : Int
  force : ForceCommand
  pid : PIDGains
  deadband : WinchDeadband
deriving DecidableEq, Repr

/-- Winch sensor snapshot, src/message.rs. -/
structure WinchSensors where
  force : ForceTelemetry
  position : Int
  velocity : ℚ
deriving DecidableEq, Repr

/-- PWM state of a winch motor, src/message.rs; `enabled` is an i16 used
as a boolean flag, embedded as Bool. -/
structure WinchPWM where
  total : ℚ
  p : ℚ
  i : ℚ
  d : ℚ
  quant : Int
  enabled : Bool
deriving DecidableEq, Repr

/-- Motor control state of a winch, src/message.rs. -/
structure WinchMotorControl where
  pwm : WinchPWM
  position_err : Int
  pos_err_filtered : ℚ
  pos_err_integral : ℚ
  vel_err_inst : ℚ
  vel_err_filtered : ℚ
deriving DecidableEq, Repr

/-- Status packet from a winch, src/message.rs. -/
structure WinchStatus where
  command_counter : Nat
  tick_counter : Nat
  command : WinchCommand
  sensors : WinchSensors
  motor : WinchMotorControl
deriving DecidableEq, Repr

/-- X-band telemetry, src/message.rs. -/
structure XBandTelemetry where
  edge_count : Nat
  speed_measure : Nat
  measure_count : Nat
deriving DecidableEq, Repr

/-- LIDAR telemetry, src/message.rs (four sensors). -/
structure LIDARTelemetry where
  ranges : List Nat
  counters : List Nat
deriving DecidableEq, Repr

/-- Analog telemetry, src/message.rs (eight channels). -/
structure AnalogTelemetry where
  values : List Nat
  counter : Nat
deriving DecidableEq, Repr

/-- IMU telemetry, src/message.rs. -/
structure IMUTelemetry where
  accelerometer : Vec3
  magnetometer : Vec3
  gyroscope : Vec3
  euler_angles : Vec3
  temperature : Int
  calib_stat : Int
  counter : Nat
deriving DecidableEq, Repr

/-- Flyer sensor pack, src/message.rs. -/
structure FlyerSensors where
  xband : XBandTelemetry
  lidar : LIDARTelemetry
  analog : AnalogTelemetry
  imu : IMUTelemetry
deriving DecidableEq, Repr

/-- Modelled from the spec: a generic JSON value, standing for the
serde_json::Value payload of UpdateConfig.  The controller never inspects
it except through Config::merge. -/
inductive JsonValue where
  | null
  | bool (b : Bool)
  | num (q : ℚ)
  | str (s : String)
  | arr (xs : List JsonValue)
  | obj (fields : List (String × JsonValue))

/-- Gimbal serial packet; the framing module is not under src/, so this is
modelled from the spec as raw bytes. -/
structure GimbalPacket where
  data : List Nat
deriving DecidableEq, Repr

/-- Gimbal command echo, src/message.rs. -/
structure GimbalCommand where
  motor_on : Bool
  rates : Int × Int
deriving DecidableEq, Repr

/-- Gimbal status report, src/message.rs. -/
structure GimbalStatus where
  command : GimbalCommand
  counter : Nat
  encoder_angles : Vec3
  center_calibration : Vec3
deriving DecidableEq, Repr

/-- Overlay rectangle, src/message.rs. -/
structure OverlayRect where
  src : Rect
  dest : Rect
  rgba : Rect
deriving DecidableEq, Repr

/-! ## Configuration (src/src/config.rs, plus spec-modelled parts)

The config.rs under src/ predates the controller sources: it carries the
mode, bot params, and winch list, but not the vision, pid-filter,
deadband or watchdog parameters that src/controller/state.rs and
src/controller/mod.rs read.  Those extra sections are modelled from the
spec (§3 Config).  Network address fields, which no claim touches, are
omitted. -/

/-- Three-dimensional point, src/config.rs. -/
structure Point3 where
  x : ℚ
  y : ℚ
  z : ℚ
deriving DecidableEq, Repr

/-- Per-winch configuration, src/config.rs (the network address is
omitted). -/
structure WinchConfig where
  loc : Point3
  calibration : WinchCalibration
deriving DecidableEq, Repr

/-- Bot parameters, src/config.rs. -/
structure BotParams where
  accel_rate_m_per_sec2 : ℚ
  manual_control_velocity_m_per_sec : ℚ
  force_min_kg : ℚ
  force_max_kg : ℚ
  force_filter_param : ℚ
  pwm_gain_p : ℚ
  pwm_gain_i : ℚ
  pwm_gain_d : ℚ
deriving DecidableEq, Repr

/-- Modelled from the spec: the vision parameter section of the config
(spec §3: tracking area bounds, PSR threshold, border rect, manual speed,
restoring force, deadzone, snap rules), read by
src/controller/state.rs but absent from the config.rs under src/. -/
structure VisionConfig where
  border_rect : Rect
  tracking_min_psr : ℚ
  tracking_min_area : ℚ
  tracking_max_area : ℚ
  tracking_default_area : ℚ
  manual_control_speed : ℚ
  manual_control_restoring_force : ℚ
  manual_camera_deadzone : ℚ
  snap_tracked_region_to : List (String × ℚ)
deriving DecidableEq, Repr

/-- Aggregate configuration.  Fields mode, params and winches are from
src/config.rs; vision, pid, deadband, velocity_limit, stuck_timeout_ticks
and watchdog_timeout_ms are modelled from the spec (§3, §4.4): they are
read by the controller sources but missing from the config.rs under src/. -/
structure Config where
  mode : ControllerMode
  params : BotParams
  winches : List WinchConfig
  vision : VisionConfig
  pid : PIDGains
  deadband : WinchDeadband
  velocity_limit : ℚ
  stuck_timeout_ticks : Nat
  watchdog_timeout_ms : Nat
deriving DecidableEq, Repr

/-- Force ceiling in raw counts: the kg limit of the config taken through
the calibration, per the spec rule that raw counts are used at the driver
boundary. -/
def forceMaxCounts (cfg : Config) (cal : WinchCalibration) : ℚ :=
  cal.force_from_kg cfg.params.force_max_kg

/-- Force floor in raw counts, symmetric to forceMaxCounts. -/
def forceMinCounts (cfg : Config) (cal : WinchCalibration) : ℚ :=
  cal.force_from_kg cfg.params.force_min_kg

/-! ## Manual controls (controller/manual.rs is not under src/) -/

/-- Modelled from the spec: ManualControls (§4.3) holds the latest
commanded value per axis, clamped into the unit interval on set, plus the
rate-limit history of the velocity ramp, here the time since the last
control tick. -/
structure ManualControls where
  axes : ManualControlAxis → ℚ
  lastDt : ℚ

/-- Modelled from the spec: a fresh ManualControls has every axis zero. -/
def ManualControls.new : ManualControls := { axes := fun _ => 0, lastDt := 0 }

/-- Modelled from the spec: control_value sets one axis, clamped into the
interval from -1 to 1. -/
def ManualControls.control_value (m : ManualControls) (axis : ManualControlAxis)
    (v : ℚ) : ManualControls :=
  { m with axes := fun a => if a = axis then clampQ v (-1) 1 else m.axes a }

/-- Modelled from the spec: control_reset zeroes every axis. -/
def ManualControls.control_reset (m : ManualControls) : ManualControls :=
  { m with axes := fun _ => 0 }

/-- Modelled from the spec: full_reset additionally clears the rate-limit
history; invoked on every mode change. -/
def ManualControls.full_reset (_m : ManualControls) : ManualControls :=
  { axes := fun _ => 0, lastDt := 0 }

/-- Modelled from the spec: control_tick advances the rate-limited manual
integration; here it records the tick period as the ramp window. -/
def ManualControls.control_tick (m : ManualControls) (_cfg : Config) : ManualControls :=
  { m with lastDt := tickDt }

/-- Modelled from the spec: limited_velocity returns the relative-axis
3-vector scaled by manual_control_velocity_m_per_sec, each component
clamped so its magnitude is at most accel-rate times the time since the
last tick (§4.3). -/
def ManualControls.limited_velocity (m : ManualControls) (cfg : Config) : Vec3 :=
  let s := cfg.params.manual_control_velocity_m_per_sec
  let lim := cfg.params.accel_rate_m_per_sec2 * m.lastDt
  { x := clampQ (m.axes ManualControlAxis.RelativeX * s) (-lim) lim
    y := clampQ (m.axes ManualControlAxis.RelativeY * s) (-lim) lim
    z := clampQ (m.axes ManualControlAxis.RelativeZ * s) (-lim) lim }

/-- Modelled from the spec: camera_control_active is true iff any camera
axis is nonzero (§4.3). -/
def ManualControls.camera_control_active (m : ManualControls) : Bool :=
  decide (m.axes ManualControlAxis.CameraYaw ≠ 0) ||
  decide (m.axes ManualControlAxis.CameraPitch ≠ 0)

/-- Modelled from the spec: camera_vector returns the yaw and pitch axes
as a 2-vector. -/
def ManualControls.camera_vector (m : ManualControls) : Vec2 :=
  { x := m.axes ManualControlAxis.CameraYaw, y := m.axes ManualControlAxis.CameraPitch }

/-- Modelled from the spec: the deadzone test holds when the camera
vector's magnitude is below manual_camera_deadzone; compared on squares
to stay in rational arithmetic. -/
def ManualControls.camera_vector_in_deadzone (v : Vec2) (cfg : Config) : Bool :=
  decide (v.x * v.x + v.y * v.y < cfg.vision.manual_camera_deadzone * cfg.vision.manual_camera_deadzone)

/-! ## Per-winch controller (controller/winch.rs is not under src/) -/

/-- Mechanism status of a winch; state.rs matches on these three
constructors, with a signed magnitude on ForceLimited. -/
inductive MechStatus where
  | Normal
  | Stuck
  | ForceLimited (f : ℚ)
deriving DecidableEq, Repr

/-- Modelled from the spec: per-winch controller state (§4.4), extended
with the position setpoint, the latest sensor position (needed for the
Halted snap), the last commanded velocity and a tick counter for the
stuck classification. -/
structure WinchController where
  id : Nat
  last_tick_counter : Nat
  last_update_instant : Nat
  last_sensor_position : Int
  filtered_force : ℚ
  pos_err_filtered : ℚ
  vel_err_filtered : ℚ
  pos_err_integral : ℚ
  mech_status : MechStatus
  quant_residual : ℚ
  setpoint : ℚ
  last_commanded_velocity : ℚ
  stuck_counter : Nat
deriving DecidableEq, Repr

/-- Modelled from the spec: WinchController::new for a given winch index,
all accumulators zero. -/
def WinchController.new (id : Nat) : WinchController :=
  { id := id, last_tick_counter := 0, last_update_instant := 0,
    last_sensor_position := 0, filtered_force := 0, pos_err_filtered := 0,
    vel_err_filtered := 0, pos_err_integral := 0, mech_status := MechStatus.Normal,
    quant_residual := 0, setpoint := 0, last_commanded_velocity := 0,
    stuck_counter := 0 }

/-- Modelled from the spec: update (§4.4) low-pass filters the measured
force and classifies the mechanism status: Stuck when the winch has been
slow while commanded for long enough, ForceLimited(+1) when the filtered
force reaches the maximum, ForceLimited(-1) when it falls to the minimum,
Normal otherwise.  It also records the status packet's tick counter, the
arrival instant and the sensor position. -/
def WinchController.update (w : WinchController) (cfg : Config)
    (cal : WinchCalibration) (status : WinchStatus) (now : Nat) : WinchController :=
  let ff := lerpQ w.filtered_force (status.sensors.force.measure : ℚ) cfg.params.force_filter_param
  let stuck_count :=
    if |status.sensors.velocity| < cfg.deadband.velocity ∧ w.last_commanded_velocity ≠ 0
    then w.stuck_counter + 1 else 0
  let mech :=
    if cfg.stuck_timeout_ticks ≤ stuck_count ∧ 0 < stuck_count then MechStatus.Stuck
    else if forceMaxCounts cfg cal ≤ ff then MechStatus.ForceLimited 1
    else if ff ≤ forceMinCounts cfg cal then MechStatus.ForceLimited (-1)
    else MechStatus.Normal
  { w with filtered_force := ff, stuck_counter := stuck_count, mech_status := mech,
           last_tick_counter := status.tick_counter, last_update_instant := now,
           last_sensor_position := status.sensors.position }

/-- Modelled from the spec: velocity_tick (§4.4) integrates the position
setpoint by the clamped velocity target over one tick; the force
interlock freezes the setpoint when the target pushes into an active
force limit; in Halted the setpoint snaps to the latest sensor position
and the integrator is cleared. -/
def WinchController.velocity_tick (w : WinchController) (cfg : Config)
    (_cal : WinchCalibration) (v_target : ℚ) : WinchController :=
  if cfg.mode = ControllerMode.Halted then
    { w with setpoint := (w.last_sensor_position : ℚ), pos_err_integral := 0,
             last_commanded_velocity := 0 }
  else
    let frozen : Bool := match w.mech_status with
      | MechStatus.ForceLimited s => decide (0 < s * v_target)
      | _ => false
    if frozen then { w with last_commanded_velocity := v_target }
    else { w with
      setpoint := w.setpoint + clampQ v_target (-cfg.velocity_limit) cfg.velocity_limit * tickDt,
      last_commanded_velocity := v_target }

/-- Modelled from the spec: make_command (§4.4) runs the PID update,
clamps the total PWM, quantizes it against the accumulated residual, and
emits the WinchCommand carrying the (integer) setpoint and the force,
pid and deadband sections computed from the config; the PWM is enabled
only outside Halted and with the watchdog satisfied.  Returns the new
controller state, the command, and the computed PWM record. -/
def WinchController.make_command (w : WinchController) (cfg : Config)
    (cal : WinchCalibration) (status : WinchStatus) (watchdog_ok : Bool) :
    WinchController × WinchCommand × WinchPWM :=
  let pos_err := w.setpoint - (status.sensors.position : ℚ)
  let pos_err_f := lerpQ w.pos_err_filtered pos_err cfg.pid.p_filter_param
  let vel_err := 0 - status.sensors.velocity
  let vel_err_f := lerpQ w.vel_err_filtered vel_err cfg.pid.d_filter_param
  let integral := w.pos_err_integral * (1 - cfg.pid.i_decay_param) + pos_err * tickDt
  let p := cfg.pid.gain_p * pos_err_f
  let i := cfg.pid.gain_i * integral
  let d := cfg.pid.gain_d * vel_err_f
  let total := clampQ (p + i + d) (-1) 1
  let enabled := decide (cfg.mode ≠ ControllerMode.Halted) && watchdog_ok
  let acc := w.quant_residual + total
  let quant : Int := ⌊acc⌋
  let pwm : WinchPWM := { total := total, p := p, i := i, d := d, quant := quant, enabled := enabled }
  let cmd : WinchCommand :=
    { position := ⌊w.setpoint⌋
      force := { filter_param := cfg.params.force_filter_param
                 neg_motion_min := forceMinCounts cfg cal
                 pos_motion_max := forceMaxCounts cfg cal
                 lockout_below := forceMinCounts cfg cal
                 lockout_above := forceMaxCounts cfg cal }
      pid := cfg.pid
      deadband := cfg.deadband }
  let w2 := { w with pos_err_filtered := pos_err_f, vel_err_filtered := vel_err_f,
                     pos_err_integral := integral, quant_residual := acc - quant }
  (w2, cmd, pwm)

/-! ## Controller state (src/src/controller/state.rs)

The LightAnimator and GimbalController collaborators are omitted: their
modules are not under src/ and no claim depends on them. -/

/-- Aggregated controller state, src/controller/state.rs.  The detected
pair holds the arrival instant (milliseconds) and the latest detection
set. -/
structure ControllerState where
  manual : ManualControls
  winches : List WinchController
  flyer_sensors : Option FlyerSensors
  detected : Nat × CameraDetectedObjects
  pending_snap : Bool
  tracked : CameraTrackedRegion
  last_mode : ControllerMode

/-- ControllerState::new from state.rs: one WinchController per configured
winch, no sensors, empty detection set stamped with the current instant,
no pending snap, empty tracked region, last_mode from the initial
config. -/
def ControllerState.new (initial_config : Config) (now : Nat) : ControllerState :=
  { manual := ManualControls.new
    winches := (List.range initial_config.winches.length).map WinchController.new
    flyer_sensors := none
    detected := (now, CameraDetectedObjects.new)
    pending_snap := false
    tracked := CameraTrackedRegion.new
    last_mode := initial_config.mode }

/-- config_changed from state.rs: on a mode change, remember the new mode
and halt motion, which fully resets the manual controls. -/
def ControllerState.config_changed (s : ControllerState) (config : Config) : ControllerState :=
  if config.mode ≠ s.last_mode then
    { s with manual := s.manual.full_reset, last_mode := config.mode }
  else s

/-- default_tracking_rect from state.rs: a square of side
√tracking_default_area centered at the origin.  The square root is
irrational in general, so the side length is an explicit argument; the
theorems that depend on its value carry the hypothesis that its square is
tracking_default_area. -/
def default_tracking_rect (side_len : ℚ) : Rect :=
  ⟨side_len * (-1/2), side_len * (-1/2), side_len, side_len⟩

/-- find_best_snap_object from state.rs: with a pending snap, fresh
detections (no older than 500 ms) and outside Halted, pick the detected
object of highest probability among those matching some snap rule
(matching means the probability reaches the rule's threshold and the
label equals the rule's); earlier objects win ties. -/
def ControllerState.find_best_snap_object (s : ControllerState) (config : Config)
    (now : Nat) : Option CameraDetectedObject :=
  if !s.pending_snap then none
  else if s.detected.1 + 500 < now then none
  else if config.mode = ControllerMode.Halted then none
  else
    s.detected.2.objects.foldl
      (fun result obj =>
        if config.vision.snap_tracked_region_to.any
            (fun rule => decide (rule.2 ≤ obj.prob) && decide (obj.label = rule.1))
        then
          match result with
          | none => some obj
          | some prev => if prev.prob < obj.prob then some obj else some prev
        else result)
      none

/-- tracking_update from state.rs.  Returns the emitted rect, if any, and
the new state.  The now argument stands for Instant::now() inside
find_best_snap_object; side_len is the side of the default tracking rect
(see default_tracking_rect). -/
def ControllerState.tracking_update (s : ControllerState) (config : Config)
    (time_step : ℚ) (now : Nat) (side_len : ℚ) :
    Option Rect × ControllerState :=
  let vis := config.vision
  let area := rect_area s.tracked.rect
  let tracking_is_bad :=
    (0 < s.tracked.age ∧ s.tracked.psr < vis.tracking_min_psr)
    ∨ area < vis.tracking_min_area ∨ vis.tracking_max_area < area
  if s.manual.camera_control_active then
    let camera_vec := s.manual.camera_vector
    let deadzone := ManualControls.camera_vector_in_deadzone camera_vec config
    let camera_vec := if deadzone then (⟨0, 0⟩ : Vec2) else camera_vec
    let velocity := vec2_mul camera_vec (vec2_scale ⟨1, -1⟩ vis.manual_control_speed)
    let restoring_force := vec2_scale ⟨-1, -1⟩ vis.manual_control_restoring_force
    let velocity := vec2_add velocity (vec2_mul (rect_center s.tracked.rect) restoring_force)
    let center := vec2_add (rect_center s.tracked.rect) (vec2_scale velocity time_step)
    let r := rect_constrain (rect_translate (default_tracking_rect side_len) center) vis.border_rect
    (some r, { s with tracked := { s.tracked with rect := r } })
  else
    match s.find_best_snap_object config now with
    | some obj =>
      let r := rect_constrain obj.rect vis.border_rect
      (some r,
       { s with pending_snap := false
                tracked := { s.tracked with rect := r, frame := s.detected.2.frame } })
    | none =>
      if tracking_is_bad then
        let r := default_tracking_rect side_len
        (some r, { s with tracked := { CameraTrackedRegion.new with rect := r } })
      else (none, s)

/-- camera_object_detection_update from state.rs: cache the detection set
with its arrival instant and request a snap. -/
def ControllerState.camera_object_detection_update (s : ControllerState)
    (det : CameraDetectedObjects) (now : Nat) : ControllerState :=
  { s with detected := (now, det), pending_snap := true }

/-- camera_region_tracking_update from state.rs: adopt the incoming
tracked region verbatim, unless manual camera control is active. -/
def ControllerState.camera_region_tracking_update (s : ControllerState)
    (tr : CameraTrackedRegion) : ControllerState :=
  if !s.manual.camera_control_active then { s with tracked := tr } else s

/-- flyer_sensor_update from state.rs: cache the sensor pack. -/
def ControllerState.flyer_sensor_update (s : ControllerState)
    (sensors : FlyerSensors) : ControllerState :=
  { s with flyer_sensors := some sensors }

/-- Velocity target computed inside winch_control_loop (state.rs): under
ManualWinch for the matching winch the manual y-velocity gated by the
mechanism status (zero when Stuck, zero when pushing into an active force
limit); zero for every other winch and in every other mode.  The winch
argument is the per-winch controller after its update call. -/
def ControllerState.winch_velocity (s : ControllerState) (config : Config)
    (id : Nat) (w : WinchController) : ℚ :=
  match config.mode with
  | ControllerMode.ManualWinch manual_id =>
    if manual_id = id then
      let v := (s.manual.limited_velocity config).y
      match w.mech_status with
      | MechStatus.Normal => v
      | MechStatus.Stuck => 0
      | MechStatus.ForceLimited f => if v * f < 0 then v else 0
    else 0
  | _ => 0

/-- winch_control_loop from state.rs: update the winch from the status
packet, compute the gated velocity target, advance the setpoint with
velocity_tick and synthesize the command with make_command.  Returns none
when the winch index is out of range (the source would panic).  The
watchdog_ok flag is threaded through to make_command (the timer state it
comes from is not under src/). -/
def ControllerState.winch_control_loop (s : ControllerState) (config : Config)
    (id : Nat) (status : WinchStatus) (now : Nat) (watchdog_ok : Bool) :
    Option (ControllerState × WinchCommand × WinchPWM) :=
  match s.winches.get? id, config.winches.get? id with
  | some w, some wcfg =>
    let cal := wcfg.calibration
    let w1 := w.update config cal status now
    let velocity := s.winch_velocity config id w1
    let w2 := w1.velocity_tick config cal velocity
    let (w3, cmd, pwm) := w2.make_command config cal status watchdog_ok
    some ({ s with winches := s.winches.set id w3 }, cmd, pwm)
  | _, _ => none

/-- Modelled from the spec: multi_winch_watchdog_should_halt (§4.4) is
true when some winch has not reported within watchdog_timeout; called by
the event loop after each winch status (its body is not under src/). -/
def ControllerState.multi_winch_watchdog_should_halt (s : ControllerState)
    (config : Config) (now : Nat) : Bool :=
  s.winches.any (fun w => decide (w.last_update_instant + config.watchdog_timeout_ms < now))

/-! ## Event loop (src/src/controller/mod.rs) -/

/-- Client commands, src/message.rs.  CameraObjectDetection is declared
there over a bare object list; state.rs reads a frame-stamped set, so the
payload here is CameraDetectedObjects. -/
inductive Command where
  | SetMode (mode : ControllerMode)
  | ManualControlReset
  | ManualControlValue (axis : ManualControlAxis) (value : ℚ)
  | CameraObjectDetection (objects : CameraDetectedObjects)
  | CameraRegionTracking (region : CameraTrackedRegion)

/-- Bus messages, src/message.rs. -/
inductive Message where
  | Command (cmd : Command)
  | FlyerSensors (sensors : FlyerSensors)
  | WinchStatus (id : Nat) (status : WinchStatus)
  | UpdateConfig (patch : JsonValue)
  | ConfigIsCurrent (config : Config)
  | GimbalStatus (status : GimbalStatus)
  | UnhandledGimbalPacket (packet : GimbalPacket)
  | CameraOverlayScene (scene : List OverlayRect)
  | CameraInitTrackedRegion (rect : Rect)

/-- Outbound side effects of the event loop, in program order: winch
commands over the socket, shared-config writes, broadcasts to the bus,
and console log lines. -/
inductive Effect where
  | winchCommand (id : Nat) (cmd : WinchCommand)
  | setSharedConfig (config : Config)
  | broadcast (msg : Message)
  | log (line : String)

/-- Decides whether an effect is a winch command (to any winch). -/
def Effect.isWinchCommand : Effect → Bool
  | Effect.winchCommand _ _ => true
  | _ => false

/-- Decides whether an effect broadcasts a ConfigIsCurrent message. -/
def Effect.isConfigBroadcast : Effect → Bool
  | Effect.broadcast (Message.ConfigIsCurrent _) => true
  | _ => false

/-- Decides whether an effect writes the shared config file. -/
def Effect.isSetSharedConfig : Effect → Bool
  | Effect.setSharedConfig _ => true
  | _ => false

/-- The loop-owned controller data relevant to message handling: the local
config snapshot and the aggregated state (src/controller/mod.rs; the bus,
socket, timers and drawing context appear only through effects). -/
structure Controller where
  local_config : Config
  state : ControllerState

/-- config_changed from mod.rs: write the local config into the shared
config file, broadcast ConfigIsCurrent with the same config, then notify
the state (which diffs the mode); the effect list keeps program order. -/
def Controller.config_changed (c : Controller) : Controller × List Effect :=
  ({ c with state := c.state.config_changed c.local_config },
   [Effect.setSharedConfig c.local_config,
    Effect.broadcast (Message.ConfigIsCurrent c.local_config)])

/-- handle_message from mod.rs.  The merge argument stands for
Config::merge (not under src/); now stands for Instant::now(); side_len
and watchdog_ok are threaded to tracking_update and make_command as
documented there.  Returns none where the source would panic (winch index
out of range). -/
def Controller.handle_message (merge : Config → JsonValue → Except String Config)
    (c : Controller) (msg : Message) (now : Nat) (side_len : ℚ)
    (watchdog_ok : Bool) : Option (Controller × List Effect) :=
  match msg with
  | Message.UpdateConfig patch =>
    match merge c.local_config patch with
    | Except.error e =>
      some (c, [Effect.log ("Error in UpdateConfig from message bus: " ++ e)])
    | Except.ok config =>
      let c1 := { c with local_config := config }
      let (c2, effs) := c1.config_changed
      some (c2, effs)
  | Message.WinchStatus id status =>
    match c.state.winch_control_loop c.local_config id status now watchdog_ok with
    | none => none
    | some (st, command, _pwm) =>
      let c1 := { c with state := st }
      if c1.state.multi_winch_watchdog_should_halt c1.local_config now then
        let c2 := { c1 with local_config := { c1.local_config with mode := ControllerMode.Halted } }
        let (c3, effs) := c2.config_changed
        some (c3, Effect.log "Halting; lost communication with one or more winches"
                    :: effs ++ [Effect.winchCommand id command])
      else
        some (c1, [Effect.winchCommand id command])
  | Message.FlyerSensors sensors =>
    some ({ c with state := c.state.flyer_sensor_update sensors }, [])
  | Message.Command (Command.CameraObjectDetection obj) =>
    let c1 := { c with state := c.state.camera_object_detection_update obj now }
    let (rect, st) := c1.state.tracking_update c1.local_config 0 now side_len
    let c2 := { c1 with state := st }
    match rect with
    | some tracking_rect =>
      some (c2, [Effect.broadcast (Message.CameraInitTrackedRegion tracking_rect)])
    | none => some (c2, [])
  | Message.Command (Command.CameraRegionTracking tr) =>
    some ({ c with state := c.state.camera_region_tracking_update tr }, [])
  | Message.Command (Command.SetMode mode) =>
    if c.local_config.mode ≠ mode then
      let c1 := { c with local_config := { c.local_config with mode := mode } }
      let (c2, effs) := c1.config_changed
      some (c2, effs)
    else some (c, [])
  | Message.Command (Command.ManualControlValue axis value) =>
    some ({ c with state := { c.state with manual := c.state.manual.control_value axis value } }, [])
  | Message.Command Command.ManualControlReset =>
    some ({ c with state := { c.state with manual := c.state.manual.control_reset } }, [])
  | _ => some (c, [])

/-- Modelled from the spec: the config-poll stage of the loop (§4.1 stage
4): fetch the latest shared snapshot and, if it differs from the local
config, adopt it and run config_changed (the ConfigScheduler module is
not under src/). -/
def Controller.config_poll (c : Controller) (polled : Config) : Controller × List Effect :=
  if polled ≠ c.local_config then
    let c1 := { c with local_config := polled }
    c1.config_changed
  else (c, [])

/-! ## ControllerPort::add_rx (src/src/controller/mod.rs lines 57-61) -/

/-- Possible outcomes of a call to ControllerPort::add_rx for the calling
thread. -/
inductive AddRxOutcome where
  | ok (reader : Nat)
  | panics
  | blocksForever
deriving DecidableEq, Repr

/-- add_rx from mod.rs: the caller try_sends a ReaderRequest carrying a
one-shot reply sender, then waits on the reply with a plain blocking recv
and unwraps the result.  Embedded over the two observable conditions: if
the input queue is full the request (and with it the reply sender) is
dropped, so recv returns an error and unwrap panics; if the loop never
replies while the channel stays open, the blocking recv never returns;
otherwise the allocated reader is returned.  No timeout appears anywhere
in the source. -/
def ControllerPort.add_rx_outcome (queue_full : Bool) (loop_reply : Option Nat) :
    AddRxOutcome :=
  if queue_full then AddRxOutcome.panics
  else
    match loop_reply with
    | some reader => AddRxOutcome.ok reader
    | none => AddRxOutcome.blocksForever

/-! ## Sample values used by witnesses and counterexamples -/

/-- Sample PID gains. -/
def pidEx : PIDGains := ⟨1, 0, 0, 1, 0, 1⟩

/-- Sample deadband. -/
def deadbandEx : WinchDeadband := ⟨4, 1/10⟩

/-- Sample bot parameters: unit scales, force window -10 to 500 kg, fast
force filter. -/
def paramsEx : BotParams := ⟨1, 1, -10, 500, 1, 1, 0, 0⟩

/-- Sample calibration: zero offset, one kg per count, one meter per
count, so kg limits and raw counts coincide numerically. -/
def calEx : WinchCalibration := ⟨0, 1, 1⟩

/-- Sample winch configuration at the origin. -/
def winchCfgEx : WinchConfig := ⟨⟨0, 0, 0⟩, calEx⟩

/-- Sample vision parameters: a 16:9 border rect, default area 1/4 (side
1/2), one snap rule. -/
def visionEx : VisionConfig :=
  ⟨⟨-1, -9/16, 2, 9/8⟩, 10, 1/100, 2, 1/4, 1, 1/10, 1/10, [("person", 1/2)]⟩

/-- Sample configuration with two winches, mode Normal. -/
def cfgEx : Config :=
  ⟨ControllerMode.Normal, paramsEx, [winchCfgEx, winchCfgEx], visionEx,
   pidEx, deadbandEx, 10, 100, 1000⟩

/-- Sample configuration in Halted mode. -/
def cfgHalted : Config := { cfgEx with mode := ControllerMode.Halted }

/-- Sample configuration in manual-winch mode for winch 1. -/
def cfgMW1 : Config := { cfgEx with mode := ControllerMode.ManualWinch 1 }

/-- Fresh controller state for the sample configuration. -/
def sEx : ControllerState := ControllerState.new cfgEx 0

/-- Zero winch command used inside sample status packets. -/
def cmd0 : WinchCommand := ⟨0, ⟨0, 0, 0, 0, 0⟩, pidEx, deadbandEx⟩

/-- Zero motor-control record used inside sample status packets. -/
def motor0 : WinchMotorControl := ⟨⟨0, 0, 0, 0, 0, false⟩, 0, 0, 0, 0, 0⟩

/-- Sample winch status: force measure 1000 counts (beyond the sample
500-count ceiling), sensor position 100, zero velocity. -/
def statusEx : WinchStatus := ⟨0, 1, cmd0, ⟨⟨1000, 0, 0⟩, 100, 0⟩, motor0⟩

/-- Sample controller handle. -/
def ctrlEx : Controller := ⟨cfgEx, sEx⟩

/-- A merge function that always succeeds without changing the config. -/
def mergeOk : Config → JsonValue → Except String Config := fun c _ => Except.ok c

/-- A merge function that always fails. -/
def mergeErr : Config → JsonValue → Except String Config :=
  fun _ _ => Except.error "bad patch"

/-- Controller state whose tracked rect is healthy (inside the area
bounds) so that tracking_update returns none. -/
def sQuiet : ControllerState := { sEx with tracked := ⟨⟨-1/4, -1/4, 1/2, 1/2⟩, 0, 0, 0⟩ }

/-- Controller state with the camera-yaw axis held at one, so manual
camera control is active. -/
def sManual : ControllerState :=
  { sEx with manual := { axes := fun a => if a = ManualControlAxis.CameraYaw then 1 else 0,
                         lastDt := 0 } }

/-- Effect list of a handle_message result (empty when the call would
panic). -/
def effsOf (o : Option (Controller × List Effect)) : List Effect :=
  (o.map Prod.snd).getD []

/-! ## Claim C6: calibration invertibility -/

/-- Claim C6 evaluated on the source maps: with kg_force_per_count 1 and
m_dist_per_count 2, the force round trip returns its input but the
distance round trip multiplies by 4, because dist_from_m multiplies by
m_dist_per_count instead of dividing.  The claim (and the naming symmetry
with force_from_kg) requires both round trips to be the identity, so this
is a bug in dist_from_m. -/
theorem c6_dist_roundtrip_fails :
    WinchCalibration.force_from_kg ⟨0, 1, 2⟩ (WinchCalibration.force_to_kg ⟨0, 1, 2⟩ 3) = 3
    ∧ WinchCalibration.dist_from_m ⟨0, 1, 2⟩ (WinchCalibration.dist_to_m ⟨0, 1, 2⟩ 3) = 12
    ∧ (12 : ℚ) ≠ 3 := by
  refine ⟨?_, ?_, by norm_num⟩
  · norm_num [WinchCalibration.force_from_kg, WinchCalibration.force_to_kg]
  · norm_num [WinchCalibration.dist_from_m, WinchCalibration.dist_to_m]

/-! ## Claim C3: manual isolation -/

/-- Claim C3: under ManualWinch(k) every winch other than k, and every
winch under any non-ManualWinch mode, gets velocity target exactly zero
from the winch control loop. -/
theorem c3_manual_isolation (s : ControllerState) (config : Config) (id : Nat)
    (w : WinchController) :
    (∀ k, config.mode = ControllerMode.ManualWinch k → id ≠ k →
       s.winch_velocity config id w = 0)
    ∧ ((∀ k, config.mode ≠ ControllerMode.ManualWinch k) →
       s.winch_velocity config id w = 0) := by
  constructor
  · intro k hk hne
    unfold ControllerState.winch_velocity
    rw [hk]
    have hki : ¬ (k = id) := fun h => hne h.symm
    simp [hki]
  · intro hnone
    unfold ControllerState.winch_velocity
    cases hmode : config.mode with
    | ManualWinch mid => exact absurd hmode (hnone mid)
    | Halted => rfl
    | Normal => rfl
    | ManualFlyer => rfl

/-- Witness for C3 at a concrete input: winch 0 under ManualWinch(1). -/
theorem c3_witness :
    sEx.winch_velocity cfgMW1 0 (WinchController.new 0) = 0 :=
  (c3_manual_isolation sEx cfgMW1 0 (WinchController.new 0)).1 1 rfl (by decide)

/-! ## Claim C9: add_rx timeout -/

/-- Claim C9 as stated: every add_rx call neither blocks forever nor
panics, for all queue and loop conditions. -/
def claimC9 : Prop :=
  ∀ (queue_full : Bool) (loop_reply : Option Nat),
    ControllerPort.add_rx_outcome queue_full loop_reply ≠ AddRxOutcome.blocksForever
    ∧ ControllerPort.add_rx_outcome queue_full loop_reply ≠ AddRxOutcome.panics

/-- Counterexample to C9: with the input queue not full and an event loop
that never fulfills the request, the caller's blocking recv never
returns; there is no timeout path in the source. -/
theorem c9_counterexample : ¬ claimC9 :=
  fun h => (h false none).1 rfl

/-- Claim C9 amended: add_rx blocks its caller indefinitely when the loop
never replies, panics when the request was dropped on a full input queue,
and returns the allocated reader only when the loop fulfills the request;
no timeout bounds the wait and no error is returned. -/
theorem c9_amended :
    ControllerPort.add_rx_outcome false none = AddRxOutcome.blocksForever
    ∧ ControllerPort.add_rx_outcome true none = AddRxOutcome.panics
    ∧ ∀ r, ControllerPort.add_rx_outcome false (some r) = AddRxOutcome.ok r :=
  ⟨rfl, rfl, fun _ => rfl⟩

/-! ## Claim C1: halted safety -/

/-- Helper: in Halted mode the control loop emits the sensor position and
a disabled PWM (shared by the C1 theorem and later counterexamples). -/
theorem winch_loop_halted_snap (s : ControllerState) (config : Config) (id : Nat)
    (status : WinchStatus) (now : Nat) (watchdog_ok : Bool)
    (st : ControllerState) (cmd : WinchCommand) (pwm : WinchPWM)
    (hmode : config.mode = ControllerMode.Halted)
    (h : s.winch_control_loop config id status now watchdog_ok = some (st, cmd, pwm)) :
    cmd.position = status.sensors.position ∧ pwm.enabled = false := by
  cases hw : s.winches.get? id with
  | none =>
    rw [ControllerState.winch_control_loop, hw] at h
    cases hc : config.winches.get? id <;> rw [hc] at h <;> cases h
  | some w =>
    cases hc : config.winches.get? id with
    | none =>
      rw [ControllerState.winch_control_loop, hw, hc] at h
      cases h
    | some wcfg =>
      rw [ControllerState.winch_control_loop, hw, hc] at h
      simp only [WinchController.update, WinchController.velocity_tick,
        WinchController.make_command, hmode, if_pos, Option.some.injEq,
        Prod.mk.injEq, reduceCtorEq, ite_true, eq_self_iff_true] at h
      obtain ⟨-, hcmd, hpwm⟩ := h
      constructor
      · rw [← hcmd]
        simp [Int.floor_intCast]
      · rw [← hpwm]
        simp

/-- Claim C1: while the mode is Halted, the command synthesized by
winch_control_loop carries exactly the sensor position reported in the
triggering WinchStatus, and the PWM computed alongside it is disabled,
for every winch and every watchdog condition. -/
theorem c1_halted_safety (s : ControllerState) (config : Config) (id : Nat)
    (status : WinchStatus) (now : Nat) (watchdog_ok : Bool)
    (st : ControllerState) (cmd : WinchCommand) (pwm : WinchPWM)
    (hmode : config.mode = ControllerMode.Halted)
    (h : s.winch_control_loop config id status now watchdog_ok = some (st, cmd, pwm)) :
    cmd.position = status.sensors.position ∧ pwm.enabled = false :=
  winch_loop_halted_snap s config id status now watchdog_ok st cmd pwm hmode h

/-- Witness for C1 at a concrete input: the sample state in Halted mode
with sensor position 100. -/
theorem c1_witness :
    ∃ st cmd pwm,
      sEx.winch_control_loop cfgHalted 0 statusEx 5 true = some (st, cmd, pwm)
      ∧ cmd.position = statusEx.sensors.position ∧ pwm.enabled = false := by
  refine ⟨_, _, _, rfl, ?_⟩
  exact c1_halted_safety sEx cfgHalted 0 statusEx 5 true _ _ _ rfl rfl

/-! ## Claim C2: force interlock -/

/-- Case analysis on the mech-status classification chain when the
filtered force has reached the ceiling. -/
theorem ite_mech_cases_max (A C : Prop) [Decidable A] [Decidable C]
    (ff fmax : ℚ) (h : fmax ≤ ff) :
    (if A then MechStatus.Stuck
     else if fmax ≤ ff then MechStatus.ForceLimited 1
     else if C then MechStatus.ForceLimited (-1)
     else MechStatus.Normal) = MechStatus.Stuck ∨
    (if A then MechStatus.Stuck
     else if fmax ≤ ff then MechStatus.ForceLimited 1
     else if C then MechStatus.ForceLimited (-1)
     else MechStatus.Normal) = MechStatus.ForceLimited 1 := by
  by_cases hA : A
  · left
    simp [hA]
  · right
    simp [hA, h]

/-- Case analysis on the mech-status classification chain when the
filtered force has fallen to the floor (below the ceiling). -/
theorem ite_mech_cases_min (A : Prop) [Decidable A]
    (ff fmax fmin : ℚ) (h : ff ≤ fmin) (hlt : fmin < fmax) :
    (if A then MechStatus.Stuck
     else if fmax ≤ ff then MechStatus.ForceLimited 1
     else if ff ≤ fmin then MechStatus.ForceLimited (-1)
     else MechStatus.Normal) = MechStatus.Stuck ∨
    (if A then MechStatus.Stuck
     else if fmax ≤ ff then MechStatus.ForceLimited 1
     else if ff ≤ fmin then MechStatus.ForceLimited (-1)
     else MechStatus.Normal) = MechStatus.ForceLimited (-1) := by
  have hB : ¬ (fmax ≤ ff) := fun hb => absurd (lt_of_lt_of_le hlt (le_trans hb h)) (lt_irrefl fmin)
  by_cases hA : A
  · left
    simp [hA]
  · right
    simp [hA, hB, h]

/-- An update that leaves the filtered force at or above the ceiling
classifies the winch as Stuck or ForceLimited(+1). -/
theorem update_mech_of_force_max (w : WinchController) (cfg : Config)
    (cal : WinchCalibration) (status : WinchStatus) (now : Nat)
    (h : forceMaxCounts cfg cal ≤ (w.update cfg cal status now).filtered_force) :
    (w.update cfg cal status now).mech_status = MechStatus.Stuck ∨
    (w.update cfg cal status now).mech_status = MechStatus.ForceLimited 1 :=
  ite_mech_cases_max _ _ _ _ h

/-- An update that leaves the filtered force at or below the floor (with
the floor below the ceiling) classifies the winch as Stuck or
ForceLimited(-1). -/
theorem update_mech_of_force_min (w : WinchController) (cfg : Config)
    (cal : WinchCalibration) (status : WinchStatus) (now : Nat)
    (h : (w.update cfg cal status now).filtered_force ≤ forceMinCounts cfg cal)
    (hlt : forceMinCounts cfg cal < forceMaxCounts cfg cal) :
    (w.update cfg cal status now).mech_status = MechStatus.Stuck ∨
    (w.update cfg cal status now).mech_status = MechStatus.ForceLimited (-1) :=
  ite_mech_cases_min _ _ _ _ h hlt

/-- A Stuck or ForceLimited(+1) winch never receives a positive velocity
target from the control loop. -/
theorem winch_velocity_nonpos (s : ControllerState) (config : Config) (id : Nat)
    (w : WinchController)
    (h : w.mech_status = MechStatus.Stuck ∨ w.mech_status = MechStatus.ForceLimited 1) :
    s.winch_velocity config id w ≤ 0 := by
  unfold ControllerState.winch_velocity
  cases config.mode with
  | ManualWinch mid =>
    by_cases hid : mid = id
    · rcases h with h | h <;> rw [h] <;> simp [hid]
      set v := (s.manual.limited_velocity config).y with hv
      split_ifs with hneg
      · linarith [hneg]
      · exact le_refl 0
    · simp [hid]
  | Halted => exact le_refl 0
  | Normal => exact le_refl 0
  | ManualFlyer => exact le_refl 0

/-- A Stuck or ForceLimited(-1) winch never receives a negative velocity
target from the control loop. -/
theorem winch_velocity_nonneg (s : ControllerState) (config : Config) (id : Nat)
    (w : WinchController)
    (h : w.mech_status = MechStatus.Stuck ∨ w.mech_status = MechStatus.ForceLimited (-1)) :
    0 ≤ s.winch_velocity config id w := by
  unfold ControllerState.winch_velocity
  cases config.mode with
  | ManualWinch mid =>
    by_cases hid : mid = id
    · rcases h with h | h <;> rw [h] <;> simp [hid]
      set v := (s.manual.limited_velocity config).y with hv
      split_ifs with hneg
      · nlinarith [hneg]
      · exact le_refl 0
    · simp [hid]
  | Halted => exact le_refl 0
  | Normal => exact le_refl 0
  | ManualFlyer => exact le_refl 0

/-- With a nonpositive velocity target, outside Halted, velocity_tick
never advances the setpoint upward. -/
theorem velocity_tick_setpoint_le (w : WinchController) (cfg : Config)
    (cal : WinchCalibration) (v : ℚ)
    (hmode : cfg.mode ≠ ControllerMode.Halted) (hv : v ≤ 0)
    (hvl : 0 ≤ cfg.velocity_limit) :
    (w.velocity_tick cfg cal v).setpoint ≤ w.setpoint := by
  unfold WinchController.velocity_tick
  rw [if_neg hmode]
  dsimp only
  split_ifs with hfr
  · exact le_refl _
  · dsimp only
    have h1 : clampQ v (-cfg.velocity_limit) cfg.velocity_limit ≤ 0 := clampQ_nonpos v _ hv hvl
    have h2 : (0 : ℚ) ≤ tickDt := by norm_num [tickDt, TICK_HZ]
    have h3 : clampQ v (-cfg.velocity_limit) cfg.velocity_limit * tickDt ≤ 0 :=
      mul_nonpos_iff.mpr (Or.inr ⟨h1, h2⟩)
    linarith

/-- With a nonnegative velocity target, outside Halted, velocity_tick
never advances the setpoint downward. -/
theorem velocity_tick_setpoint_ge (w : WinchController) (cfg : Config)
    (cal : WinchCalibration) (v : ℚ)
    (hmode : cfg.mode ≠ ControllerMode.Halted) (hv : 0 ≤ v)
    (hvl : 0 ≤ cfg.velocity_limit) :
    w.setpoint ≤ (w.velocity_tick cfg cal v).setpoint := by
  unfold WinchController.velocity_tick
  rw [if_neg hmode]
  dsimp only
  split_ifs with hfr
  · exact le_refl _
  · dsimp only
    have h1 : 0 ≤ clampQ v (-cfg.velocity_limit) cfg.velocity_limit := clampQ_nonneg v _ hv hvl
    have h2 : (0 : ℚ) ≤ tickDt := by norm_num [tickDt, TICK_HZ]
    have h3 : 0 ≤ clampQ v (-cfg.velocity_limit) cfg.velocity_limit * tickDt :=
      mul_nonneg h1 h2
    linarith

/-- Claim C2 as stated, over every mode: once the update of a winch
leaves its filtered force at or beyond a limit, the emitted setpoint does
not move further in the limit's direction, for a well-formed config
(nonnegative velocity clamp, force floor below ceiling). -/
def claimC2 : Prop :=
  ∀ (s : ControllerState) (config : Config) (id : Nat) (status : WinchStatus)
    (now : Nat) (watchdog_ok : Bool) (st : ControllerState) (cmd : WinchCommand)
    (pwm : WinchPWM) (w : WinchController) (wcfg : WinchConfig),
    0 ≤ config.velocity_limit →
    forceMinCounts config wcfg.calibration < forceMaxCounts config wcfg.calibration →
    s.winches.get? id = some w →
    config.winches.get? id = some wcfg →
    s.winch_control_loop config id status now watchdog_ok = some (st, cmd, pwm) →
    (forceMaxCounts config wcfg.calibration ≤
       (w.update config wcfg.calibration status now).filtered_force →
       cmd.position ≤ ⌊w.setpoint⌋)
    ∧ ((w.update config wcfg.calibration status now).filtered_force ≤
         forceMinCounts config wcfg.calibration →
       ⌊w.setpoint⌋ ≤ cmd.position)

/-- Claim C2 amended: the same statement restricted to modes other than
Halted; in Halted the setpoint snaps to the current sensor position
regardless of the force state. -/
theorem c2_force_interlock (s : ControllerState) (config : Config) (id : Nat)
    (status : WinchStatus) (now : Nat) (watchdog_ok : Bool)
    (st : ControllerState) (cmd : WinchCommand) (pwm : WinchPWM)
    (w : WinchController) (wcfg : WinchConfig)
    (hmode : config.mode ≠ ControllerMode.Halted)
    (hvl : 0 ≤ config.velocity_limit)
    (hwin : forceMinCounts config wcfg.calibration < forceMaxCounts config wcfg.calibration)
    (hw : s.winches.get? id = some w)
    (hc : config.winches.get? id = some wcfg)
    (h : s.winch_control_loop config id status now watchdog_ok = some (st, cmd, pwm)) :
    (forceMaxCounts config wcfg.calibration ≤
       (w.update config wcfg.calibration status now).filtered_force →
       cmd.position ≤ ⌊w.setpoint⌋)
    ∧ ((w.update config wcfg.calibration status now).filtered_force ≤
         forceMinCounts config wcfg.calibration →
       ⌊w.setpoint⌋ ≤ cmd.position) := by
  rw [ControllerState.winch_control_loop, hw, hc] at h
  simp only [WinchController.make_command, Option.some.injEq, Prod.mk.injEq] at h
  obtain ⟨-, hcmd, -⟩ := h
  constructor
  · intro hmax
    have hmech := update_mech_of_force_max w config wcfg.calibration status now hmax
    have hv : s.winch_velocity config id (w.update config wcfg.calibration status now) ≤ 0 :=
      winch_velocity_nonpos s config id _ hmech
    have hsp : ((w.update config wcfg.calibration status now).velocity_tick config
        wcfg.calibration (s.winch_velocity config id (w.update config wcfg.calibration status now))).setpoint
        ≤ w.setpoint :=
      velocity_tick_setpoint_le _ config wcfg.calibration _ hmode hv hvl
    rw [← hcmd]
    exact Int.floor_le_floor hsp
  · intro hmin
    have hmech := update_mech_of_force_min w config wcfg.calibration status now hmin hwin
    have hv : 0 ≤ s.winch_velocity config id (w.update config wcfg.calibration status now) :=
      winch_velocity_nonneg s config id _ hmech
    have hsp : w.setpoint ≤ ((w.update config wcfg.calibration status now).velocity_tick config
        wcfg.calibration (s.winch_velocity config id (w.update config wcfg.calibration status now))).setpoint :=
      velocity_tick_setpoint_ge _ config wcfg.calibration _ hmode hv hvl
    rw [← hcmd]
    exact Int.floor_le_floor hsp

/-- Counterexample to C2 as stated: in Halted mode with the filtered
force beyond the ceiling and the drum pulled forward to sensor position
100, the emitted setpoint jumps from 0 to 100, strictly increasing. -/
theorem c2_counterexample : ¬ claimC2 := by
  intro h
  obtain ⟨st, cmd, pwm, hloop⟩ : ∃ st cmd pwm,
      sEx.winch_control_loop cfgHalted 0 statusEx 0 true = some (st, cmd, pwm) :=
    ⟨_, _, _, rfl⟩
  have hcmd := (winch_loop_halted_snap sEx cfgHalted 0 statusEx 0 true st cmd pwm rfl hloop).1
  have hfm : forceMinCounts cfgHalted winchCfgEx.calibration <
      forceMaxCounts cfgHalted winchCfgEx.calibration := by
    norm_num [forceMinCounts, forceMaxCounts, WinchCalibration.force_from_kg,
      cfgHalted, cfgEx, winchCfgEx, calEx, paramsEx]
  have hmax : forceMaxCounts cfgHalted winchCfgEx.calibration ≤
      ((WinchController.new 0).update cfgHalted winchCfgEx.calibration statusEx 0).filtered_force := by
    norm_num [forceMaxCounts, WinchCalibration.force_from_kg, WinchController.update,
      WinchController.new, lerpQ, cfgHalted, cfgEx, winchCfgEx, calEx, paramsEx, statusEx]
  have h1 := h sEx cfgHalted 0 statusEx 0 true st cmd pwm (WinchController.new 0) winchCfgEx
    (by decide) hfm (by decide) (by decide) hloop
  have h2 := h1.1 hmax
  rw [hcmd] at h2
  norm_num [statusEx, WinchController.new] at h2

/-- Witness for the amended C2 at a concrete input: mode Normal, filtered
force 1000 beyond the 500-count ceiling, emitted setpoint stays at 0. -/
theorem c2_witness :
    ∃ st cmd pwm,
      sEx.winch_control_loop cfgEx 0 statusEx 5 true = some (st, cmd, pwm)
      ∧ cmd.position ≤ 0 := by
  refine ⟨_, _, _, rfl, ?_⟩
  have hfm : forceMinCounts cfgEx winchCfgEx.calibration <
      forceMaxCounts cfgEx winchCfgEx.calibration := by
    norm_num [forceMinCounts, forceMaxCounts, WinchCalibration.force_from_kg,
      cfgEx, winchCfgEx, calEx, paramsEx]
  have hmax : forceMaxCounts cfgEx winchCfgEx.calibration ≤
      ((WinchController.new 0).update cfgEx winchCfgEx.calibration statusEx 5).filtered_force := by
    norm_num [forceMaxCounts, WinchCalibration.force_from_kg, WinchController.update,
      WinchController.new, lerpQ, cfgEx, winchCfgEx, calEx, paramsEx, statusEx]
  have h := (c2_force_interlock sEx cfgEx 0 statusEx 5 true _ _ _
    (WinchController.new 0) winchCfgEx (by decide) (by decide) hfm
    (by decide) (by decide) rfl).1 hmax
  norm_num [WinchController.new] at h
  exact h

/-! ## Claim C10: tracking_update returning none leaves the state intact -/

/-- Claim C10: whenever tracking_update returns none, the controller state
(tracked region, pending snap flag, cached detections and all) is exactly
what it was before the call. -/
theorem c10_tracking_update_none_pure (s : ControllerState) (config : Config)
    (time_step : ℚ) (now : Nat) (side_len : ℚ)
    (h : (s.tracking_update config time_step now side_len).1 = none) :
    (s.tracking_update config time_step now side_len).2 = s := by
  unfold ControllerState.tracking_update at h ⊢
  dsimp only at h ⊢
  by_cases hA : s.manual.camera_control_active = true
  · rw [if_pos hA] at h
    simp at h
  · rw [if_neg hA] at h ⊢
    obtain ⟨res, hres⟩ : ∃ o, s.find_best_snap_object config now = o := ⟨_, rfl⟩
    rw [hres] at h ⊢
    cases res with
    | some obj =>
      simp at h
    | none =>
      dsimp only at h ⊢
      by_cases hB : ((0 < s.tracked.age ∧ s.tracked.psr < config.vision.tracking_min_psr)
          ∨ rect_area s.tracked.rect < config.vision.tracking_min_area
          ∨ config.vision.tracking_max_area < rect_area s.tracked.rect)
      · rw [if_pos hB] at h
        simp at h
      · rw [if_neg hB]

/-- Witness for C10 at a concrete input: a healthy tracked rect, no
manual camera input and no pending snap, so tracking_update returns none
and the state is untouched. -/
theorem c10_witness : (sQuiet.tracking_update cfgEx 0 0 (1/2)).2 = sQuiet :=
  c10_tracking_update_none_pure sQuiet cfgEx 0 0 (1/2) (by
    norm_num [ControllerState.tracking_update, ControllerState.find_best_snap_object,
      ManualControls.camera_control_active, sQuiet, sEx, ControllerState.new,
      ManualControls.new, cfgEx, visionEx, rect_area, CameraTrackedRegion.new])

/-! ## Claim C4: tracking containment -/

/-- Claim C4 as stated: every rect returned by tracking_update, and the
tracked rect stored by every camera_region_tracking_update, lies inside
config.vision.border_rect. -/
def claimC4 : Prop :=
  (∀ (s : ControllerState) (config : Config) (time_step : ℚ) (now : Nat)
     (side_len : ℚ) (r : Rect),
     (s.tracking_update config time_step now side_len).1 = some r →
     rectContains config.vision.border_rect r)
  ∧ (∀ (s : ControllerState) (config : Config) (tr : CameraTrackedRegion),
     rectContains config.vision.border_rect
       ((s.camera_region_tracking_update tr).tracked.rect))

/-- Counterexample to C4 as stated: camera_region_tracking_update stores
the incoming region verbatim, so a region at x = 5 far outside the sample
border rect is stored unconstrained. -/
theorem c4_counterexample : ¬ claimC4 := by
  intro h
  have h2 := h.2 sQuiet cfgEx ⟨⟨5, 5, 1, 1⟩, 0, 0, 0⟩
  have he : (sQuiet.camera_region_tracking_update ⟨⟨5, 5, 1, 1⟩, 0, 0, 0⟩).tracked.rect
      = ⟨5, 5, 1, 1⟩ := rfl
  rw [he] at h2
  exact absurd h2 (by norm_num [rectContains, cfgEx, visionEx])

/-- Claim C4 amended: every rect produced by the manual-steer or snap
branch of tracking_update is constrained into config.vision.border_rect
and stored as the tracked rect; the bad-tracking reset branch and
camera_region_tracking_update store their rects without constraining. -/
theorem c4_tracking_containment (s : ControllerState) (config : Config)
    (time_step : ℚ) (now : Nat) (side_len : ℚ) (r : Rect)
    (hbranch : s.manual.camera_control_active = true
      ∨ (s.find_best_snap_object config now).isSome = true)
    (h : (s.tracking_update config time_step now side_len).1 = some r) :
    rectContains config.vision.border_rect r
    ∧ (s.tracking_update config time_step now side_len).2.tracked.rect = r := by
  unfold ControllerState.tracking_update at h ⊢
  dsimp only at h ⊢
  by_cases hA : s.manual.camera_control_active = true
  · rw [if_pos hA] at h ⊢
    dsimp only at h ⊢
    obtain rfl := Option.some.inj h
    exact ⟨rect_constrain_contains _ _, rfl⟩
  · rcases hbranch with hb | hb
    · exact absurd hb hA
    · rw [if_neg hA] at h ⊢
      obtain ⟨res, hres⟩ : ∃ o, s.find_best_snap_object config now = o := ⟨_, rfl⟩
      rw [hres] at h hb ⊢
      cases res with
      | none =>
        simp at hb
      | some obj =>
        dsimp only at h ⊢
        obtain rfl := Option.some.inj h
        exact ⟨rect_constrain_contains _ _, rfl⟩

/-- Witness for the amended C4 at a concrete input: manual steering with
yaw held at one and zero elapsed time yields the default square, already
inside the sample border. -/
theorem c4_witness :
    rectContains cfgEx.vision.border_rect ⟨-1/4, -1/4, 1/2, 1/2⟩
    ∧ (sManual.tracking_update cfgEx 0 0 (1/2)).2.tracked.rect = ⟨-1/4, -1/4, 1/2, 1/2⟩ :=
  c4_tracking_containment sManual cfgEx 0 0 (1/2) ⟨-1/4, -1/4, 1/2, 1/2⟩
    (Or.inl (by decide))
    (by norm_num [ControllerState.tracking_update, ManualControls.camera_control_active,
      ManualControls.camera_vector, ManualControls.camera_vector_in_deadzone,
      vec2_add, vec2_mul, vec2_scale, rect_center, rect_translate, rect_constrain,
      clampQ, default_tracking_rect, sManual, sEx, ControllerState.new,
      CameraTrackedRegion.new, ManualControls.new, cfgEx, visionEx, rect_area,
      min_def, max_def, Rect.mk.injEq])

/-! ## Claim C5: one winch command per status -/

/-- Claim C5: handling a WinchStatus message emits exactly one winch
command effect, addressed to that winch, in every mode (Halted included)
and also when the multi-winch watchdog forces a halt during the same
message. -/
theorem c5_one_winch_command (merge : Config → JsonValue → Except String Config)
    (c : Controller) (id : Nat) (status : WinchStatus) (now : Nat)
    (side_len : ℚ) (watchdog_ok : Bool) (c2 : Controller) (effs : List Effect)
    (h : Controller.handle_message merge c (Message.WinchStatus id status) now
      side_len watchdog_ok = some (c2, effs)) :
    ∃ cmd, effs.filter Effect.isWinchCommand = [Effect.winchCommand id cmd] := by
  simp only [Controller.handle_message] at h
  obtain ⟨res, hres⟩ :
      ∃ o, c.state.winch_control_loop c.local_config id status now watchdog_ok = o :=
    ⟨_, rfl⟩
  rw [hres] at h
  cases res with
  | none => simp at h
  | some triple =>
    obtain ⟨st, command, pwm⟩ := triple
    simp only [Controller.config_changed] at h
    split_ifs at h with hwd
    · simp only [Option.some.injEq, Prod.mk.injEq] at h
      obtain ⟨-, heffs⟩ := h
      refine ⟨command, ?_⟩
      rw [← heffs]
      simp [Effect.isWinchCommand, List.filter]
    · simp only [Option.some.injEq, Prod.mk.injEq] at h
      obtain ⟨-, heffs⟩ := h
      refine ⟨command, ?_⟩
      rw [← heffs]
      simp [Effect.isWinchCommand, List.filter]

/-- Witness for C5 at a concrete input: the sample controller handling a
status for winch 0. -/
theorem c5_witness :
    ∃ cmd, (effsOf (Controller.handle_message mergeOk ctrlEx
        (Message.WinchStatus 0 statusEx) 3 1 true)).filter Effect.isWinchCommand
      = [Effect.winchCommand 0 cmd] := by
  obtain ⟨c2, effs, h⟩ : ∃ c2 effs,
      Controller.handle_message mergeOk ctrlEx (Message.WinchStatus 0 statusEx) 3 1 true
        = some (c2, effs) := ⟨_, _, rfl⟩
  have hx := c5_one_winch_command mergeOk ctrlEx 0 statusEx 3 1 true c2 effs h
  simpa [effsOf, h] using hx

/-! ## Claim C7: config mutation ordering -/

/-- Claim C7: on each of the four config mutations (successful
UpdateConfig merge, SetMode change, watchdog-forced halt, config-poll
adoption) the effect sequence writes the shared config file and then
broadcasts ConfigIsCurrent with the very same config, in that order. -/
theorem c7_config_mutation_order (merge : Config → JsonValue → Except String Config)
    (c : Controller) (now : Nat) (side_len : ℚ) (watchdog_ok : Bool) :
    (∀ patch config c2 effs,
       merge c.local_config patch = Except.ok config →
       Controller.handle_message merge c (Message.UpdateConfig patch) now side_len
         watchdog_ok = some (c2, effs) →
       effs = [Effect.setSharedConfig config,
               Effect.broadcast (Message.ConfigIsCurrent config)])
    ∧ (∀ mode c2 effs,
       c.local_config.mode ≠ mode →
       Controller.handle_message merge c (Message.Command (Command.SetMode mode)) now
         side_len watchdog_ok = some (c2, effs) →
       effs = [Effect.setSharedConfig { c.local_config with mode := mode },
               Effect.broadcast (Message.ConfigIsCurrent { c.local_config with mode := mode })])
    ∧ (∀ id status st command pwm c2 effs,
       c.state.winch_control_loop c.local_config id status now watchdog_ok
         = some (st, command, pwm) →
       ControllerState.multi_winch_watchdog_should_halt st c.local_config now = true →
       Controller.handle_message merge c (Message.WinchStatus id status) now side_len
         watchdog_ok = some (c2, effs) →
       effs = [Effect.log "Halting; lost communication with one or more winches",
               Effect.setSharedConfig { c.local_config with mode := ControllerMode.Halted },
               Effect.broadcast (Message.ConfigIsCurrent
                 { c.local_config with mode := ControllerMode.Halted }),
               Effect.winchCommand id command])
    ∧ (∀ polled c2 effs,
       polled ≠ c.local_config →
       c.config_poll polled = (c2, effs) →
       effs = [Effect.setSharedConfig polled,
               Effect.broadcast (Message.ConfigIsCurrent polled)]) := by
  refine ⟨?_, ?_, ?_, ?_⟩
  · intro patch config c2 effs hm h
    simp only [Controller.handle_message] at h
    rw [hm] at h
    simp only [Controller.config_changed, Option.some.injEq, Prod.mk.injEq] at h
    exact h.2.symm
  · intro mode c2 effs hne h
    simp only [Controller.handle_message] at h
    rw [if_pos hne] at h
    simp only [Controller.config_changed, Option.some.injEq, Prod.mk.injEq] at h
    exact h.2.symm
  · intro id status st command pwm c2 effs hloop hwd h
    simp only [Controller.handle_message] at h
    rw [hloop] at h
    dsimp only at h
    rw [if_pos hwd] at h
    simp only [Controller.config_changed, Option.some.injEq, Prod.mk.injEq] at h
    exact h.2.symm
  · intro polled c2 effs hne h
    unfold Controller.config_poll at h
    rw [if_pos hne] at h
    simp only [Controller.config_changed, Prod.mk.injEq] at h
    exact h.2.symm

/-- Witness for C7 at a concrete input: a SetMode command switching the
sample controller from Normal to Halted. -/
theorem c7_witness :
    effsOf (Controller.handle_message mergeOk ctrlEx
        (Message.Command (Command.SetMode ControllerMode.Halted)) 0 1 true)
      = [Effect.setSharedConfig cfgHalted,
         Effect.broadcast (Message.ConfigIsCurrent cfgHalted)] := by
  obtain ⟨c2, effs, h⟩ : ∃ c2 effs,
      Controller.handle_message mergeOk ctrlEx
        (Message.Command (Command.SetMode ControllerMode.Halted)) 0 1 true
        = some (c2, effs) := ⟨_, _, rfl⟩
  have hx := (c7_config_mutation_order mergeOk ctrlEx 0 1 true).2.1
    ControllerMode.Halted c2 effs (by decide) h
  simp only [effsOf, h, Option.map_some', Option.getD_some]
  rw [hx]
  rfl

/-! ## Claim C8: merge failure is logged and ignored -/

/-- Claim C8: when the UpdateConfig merge fails, the handler leaves the
controller (and so the local config) unchanged and emits only a log line;
in particular no shared-config write and no ConfigIsCurrent broadcast
happen for that patch. -/
theorem c8_merge_failure (merge : Config → JsonValue → Except String Config)
    (c : Controller) (patch : JsonValue) (e : String) (now : Nat)
    (side_len : ℚ) (watchdog_ok : Bool)
    (h : merge c.local_config patch = Except.error e) :
    Controller.handle_message merge c (Message.UpdateConfig patch) now side_len watchdog_ok
      = some (c, [Effect.log ("Error in UpdateConfig from message bus: " ++ e)]) := by
  simp only [Controller.handle_message]
  rw [h]

/-- Witness for C8 at a concrete input: a merge function that rejects the
patch. -/
theorem c8_witness :
    Controller.handle_message mergeErr ctrlEx (Message.UpdateConfig JsonValue.null) 0 1 true
      = some (ctrlEx, [Effect.log ("Error in UpdateConfig from message bus: " ++ "bad patch")]) :=
  c8_merge_failure mergeErr ctrlEx JsonValue.null "bad patch" 0 1 true rfl
